import Mathlib

/-!
Verification of the onefuzz integration-test fuzzing fixtures.

The C sources under `src/integration-tests/` are shallowly embedded here:
bytes are `Nat` (values < 256 in practice; the embedding reads them only
through equality tests against fixed ASCII codes), buffers are `List Nat`,
C strings are `List Char`, and the intentionally-triggered memory-safety
violations are represented by the `Fault` they would raise, since the
observable contract is *which* fault executes, not its machine effect.
-/

namespace Onefuzz

/-- The closed enumeration of intentionally triggered fault kinds, one per
`case` arm of the dispatcher `switch` statements. -/
inductive Fault where
  | nullWrite
  | stackUnderflow
  | stackOverflow
  | badFree
  | doubleFree
  | useAfterFree
  | heapOverflow
  | divByZero
  | processAbort
deriving DecidableEq, Repr

/-- Observable outcome of one `TestOneInput` call on a fault dispatcher:
which fault (if any) executed, and the value returned when control reaches
the final `return`. -/
structure RunResult where
  fault : Option Fault
  ret : Int
deriving DecidableEq, Repr

namespace Simple

/-- Embedding of `LLVMFuzzerTestOneInput` from
`src/integration-tests/libfuzzer/simple.c`.  `only_asan` is the global set
by `LLVMFuzzerInitialize`.  The gate counter `cnt` and the `switch` on
`data[3]` are translated arm by arm; ASCII codes: 'x' = 120, 'y' = 121,
'z' = 122, '0' = 48 … '8' = 56. -/
def LLVMFuzzerTestOneInput (only_asan : Bool) (data : List Nat) : RunResult :=
  if data.length < 4 then ⟨none, 0⟩
  else
    let cnt1 : Nat := if data.getD 0 0 = 120 then 0 + 1 else 0
    let cnt2 : Nat := if data.getD 1 0 = 121 then cnt1 + 1 else cnt1
    let cnt3 : Nat := if data.getD 2 0 = 122 then cnt2 + 1 else cnt2
    if 3 ≤ cnt3 then
      let s := data.getD 3 0
      if s = 48 then ⟨some Fault.nullWrite, 0⟩
      else if s = 49 then ⟨some Fault.stackUnderflow, 0⟩
      else if s = 50 then ⟨some Fault.stackOverflow, 0⟩
      else if s = 51 then ⟨some Fault.badFree, 0⟩
      else if s = 52 then ⟨some Fault.doubleFree, 0⟩
      else if s = 53 then ⟨some Fault.useAfterFree, 0⟩
      else if s = 54 then ⟨some Fault.heapOverflow, 0⟩
      else if s = 55 then ⟨some Fault.divByZero, 0⟩
      else if s = 56 then
        (if only_asan then ⟨none, 0⟩ else ⟨some Fault.processAbort, 0⟩)
      else ⟨none, 0⟩
    else ⟨none, 0⟩

end Simple

namespace Bad

/-- Embedding of `func` from
`src/integration-tests/libfuzzer-load-library/bad.c`: identical gate and
selector arms '0'…'7', but no '8' arm. -/
def func (data : List Nat) : RunResult :=
  if data.length < 4 then ⟨none, 0⟩
  else
    let cnt1 : Nat := if data.getD 0 0 = 120 then 0 + 1 else 0
    let cnt2 : Nat := if data.getD 1 0 = 121 then cnt1 + 1 else cnt1
    let cnt3 : Nat := if data.getD 2 0 = 122 then cnt2 + 1 else cnt2
    if 3 ≤ cnt3 then
      let s := data.getD 3 0
      if s = 48 then ⟨some Fault.nullWrite, 0⟩
      else if s = 49 then ⟨some Fault.stackUnderflow, 0⟩
      else if s = 50 then ⟨some Fault.stackOverflow, 0⟩
      else if s = 51 then ⟨some Fault.badFree, 0⟩
      else if s = 52 then ⟨some Fault.doubleFree, 0⟩
      else if s = 53 then ⟨some Fault.useAfterFree, 0⟩
      else if s = 54 then ⟨some Fault.heapOverflow, 0⟩
      else if s = 55 then ⟨some Fault.divByZero, 0⟩
      else ⟨none, 0⟩
    else ⟨none, 0⟩

end Bad

namespace Regression

/-- Embedding of `LLVMFuzzerTestOneInput` from
`src/integration-tests/libfuzzer-regression/simple.c`.  `fixedBuild`
models the `FIXED` preprocessor flag: when it is set the abort block is
compiled out. -/
def LLVMFuzzerTestOneInput (fixedBuild : Bool) (data : List Nat) : RunResult :=
  if data.length < 3 then ⟨none, 0⟩
  else
    let cnt1 : Nat := if data.getD 0 0 = 120 then 0 + 1 else 0
    let cnt2 : Nat := if data.getD 1 0 = 121 then cnt1 + 1 else cnt1
    let cnt3 : Nat := if data.getD 2 0 = 122 then cnt2 + 1 else cnt2
    if fixedBuild = false ∧ 3 ≤ cnt3 then ⟨some Fault.processAbort, 0⟩
    else ⟨none, 0⟩

end Regression

namespace Simple

/-- The argument recognized by a leading-substring match in
`LLVMFuzzerInitialize` (`"--write_test_file="`), as a char list. -/
def test_file_arg : List Char := "--write_test_file=".data

/-- The argument recognized by an exact match in `LLVMFuzzerInitialize`
(`"--only_asan_failures"`), as a char list. -/
def asan_only_arg : List Char := "--only_asan_failures".data

/-- The fixed marker line `LLVMFuzzerInitialize` appends to the requested
file. -/
def marker_line : List Char := "Hello from simple fuzzer\n".data

/-- The state `LLVMFuzzerInitialize` acts on: the contents of the file
system (`""` for a file that does not exist yet, as append-mode `fopen`
creates it) and the `only_asan` global. -/
structure InitState where
  fs : List Char → List Char
  only_asan : Bool

/-- One iteration of the argument loop in `LLVMFuzzerInitialize` of
`src/integration-tests/libfuzzer/simple.c`: a `--write_test_file=` match
opens the named file in append mode (failure, modelled by the `writable`
environment, makes the whole call return `-1` at once) and appends the
marker line; then, in the same iteration, an exact `--only_asan_failures`
match sets the global. -/
def initStep (writable : List Char → Bool) (st : InitState) (arg : List Char) :
    Except Int InitState :=
  if test_file_arg.isPrefixOf arg then
    if writable (arg.drop test_file_arg.length) then
      Except.ok
        { fs := fun p =>
            if p = arg.drop test_file_arg.length then st.fs p ++ marker_line
            else st.fs p,
          only_asan := if arg = asan_only_arg then true else st.only_asan }
    else Except.error (-1)
  else
    Except.ok { st with only_asan := if arg = asan_only_arg then true else st.only_asan }

/-- Embedding of `LLVMFuzzerInitialize` from
`src/integration-tests/libfuzzer/simple.c`: fold `initStep` over `argv`.
`Except.ok` is the `return 0` path, `Except.error (-1)` the failed
`fopen` path. -/
def LLVMFuzzerInitialize (writable : List Char → Bool) (st : InitState)
    (args : List (List Char)) : Except Int InitState :=
  match args with
  | [] => Except.ok st
  | a :: rest =>
    match initStep writable st a with
    | Except.error e => Except.error e
    | Except.ok st₁ => LLVMFuzzerInitialize writable st₁ rest

end Simple

/-- The type of the fuzzing entry point resolved from a dynamically loaded
module: `(const uint8_t *data, size_t size) -> int`. -/
def FuzzFunc := List Nat → Nat → Int

/-- Outcome of one `LLVMFuzzerInitialize` call in the dynamic-load
adapters: either the process exited with a code, or the call returned a
status with the `fuzz_func` global left as recorded. -/
inductive InitOutcome where
  | exited (code : Nat)
  | returned (status : Int) (fuzz_func : Option FuzzFunc)

/-- Whether the outcome terminated the process. -/
def InitOutcome.isExited : InitOutcome → Bool
  | .exited _ => true
  | .returned _ _ => false

/-- Outcome of one adapter `LLVMFuzzerTestOneInput` call: a returned value,
or a fatal `assert` failure. -/
inductive CallOutcome where
  | returned (ret : Int)
  | assertionFailure

namespace Dlopen

/-- Embedding of `LLVMFuzzerInitialize` from
`src/integration-tests/libfuzzer-dlopen/main.c`.  `moduleOk` models
whether `dlopen("libbad.so")` yields a handle; `resolved` models the
`dlsym` outcome (`none` when `dlerror()` reports a failure).  A failed
`dlopen` makes the call *return* 1; a failed `dlsym` calls
`exit(EXIT_FAILURE)` (code 1). -/
def LLVMFuzzerInitialize (moduleOk : Bool) (resolved : Option FuzzFunc) :
    InitOutcome :=
  if moduleOk = false then InitOutcome.returned 1 none
  else
    match resolved with
    | none => InitOutcome.exited 1
    | some f => InitOutcome.returned 0 (some f)

/-- Embedding of `LLVMFuzzerTestOneInput` from
`src/integration-tests/libfuzzer-dlopen/main.c`: `assert(fuzz_func != NULL)`
then delegate. -/
def LLVMFuzzerTestOneInput (fuzz_func : Option FuzzFunc) (data : List Nat)
    (size : Nat) : CallOutcome :=
  match fuzz_func with
  | none => CallOutcome.assertionFailure
  | some f => CallOutcome.returned (f data size)

end Dlopen

namespace LoadLibrary

/-- Embedding of `LLVMFuzzerInitialize` from
`src/integration-tests/libfuzzer-load-library/main.c`.  Both a failed
`LoadLibrary("bad.dll")` and a failed `GetProcAddress` call
`exit(EXIT_FAILURE)` (code 1). -/
def LLVMFuzzerInitialize (moduleOk : Bool) (resolved : Option FuzzFunc) :
    InitOutcome :=
  if moduleOk = false then InitOutcome.exited 1
  else
    match resolved with
    | none => InitOutcome.exited 1
    | some f => InitOutcome.returned 0 (some f)

/-- Embedding of `LLVMFuzzerTestOneInput` from
`src/integration-tests/libfuzzer-load-library/main.c`: identical to the
dlopen adapter's. -/
def LLVMFuzzerTestOneInput (fuzz_func : Option FuzzFunc) (data : List Nat)
    (size : Nat) : CallOutcome :=
  match fuzz_func with
  | none => CallOutcome.assertionFailure
  | some f => CallOutcome.returned (f data size)

end LoadLibrary

/-- The fault table of spec §4.2, keyed by the selector's index 0…8 in the
enumeration.  Stated from the spec's words so the dispatcher embeddings
can be compared against it. -/
def specFaultTable : Nat → Option Fault
  | 0 => some Fault.nullWrite
  | 1 => some Fault.stackUnderflow
  | 2 => some Fault.stackOverflow
  | 3 => some Fault.badFree
  | 4 => some Fault.doubleFree
  | 5 => some Fault.useAfterFree
  | 6 => some Fault.heapOverflow
  | 7 => some Fault.divByZero
  | 8 => some Fault.processAbort
  | _ => none

/-! ## Helper lemmas -/

/-- On a gate-satisfying input `x y z c …`, the simple dispatcher reduces
to the bare selector chain on `c`. -/
theorem simple_gate_run (oa : Bool) (c : Nat) (rest : List Nat) :
    Simple.LLVMFuzzerTestOneInput oa (120 :: 121 :: 122 :: c :: rest) =
      (if c = 48 then ⟨some Fault.nullWrite, 0⟩
       else if c = 49 then ⟨some Fault.stackUnderflow, 0⟩
       else if c = 50 then ⟨some Fault.stackOverflow, 0⟩
       else if c = 51 then ⟨some Fault.badFree, 0⟩
       else if c = 52 then ⟨some Fault.doubleFree, 0⟩
       else if c = 53 then ⟨some Fault.useAfterFree, 0⟩
       else if c = 54 then ⟨some Fault.heapOverflow, 0⟩
       else if c = 55 then ⟨some Fault.divByZero, 0⟩
       else if c = 56 then
         (if oa then ⟨none, 0⟩ else ⟨some Fault.processAbort, 0⟩)
       else ⟨none, 0⟩) := by
  simp [Simple.LLVMFuzzerTestOneInput, List.getD_cons_zero, List.getD_cons_succ]

/-- On a gate-satisfying input `x y z c …`, `Bad.func` reduces to the bare
selector chain on `c` (no `'8'` arm). -/
theorem bad_gate_run (c : Nat) (rest : List Nat) :
    Bad.func (120 :: 121 :: 122 :: c :: rest) =
      (if c = 48 then ⟨some Fault.nullWrite, 0⟩
       else if c = 49 then ⟨some Fault.stackUnderflow, 0⟩
       else if c = 50 then ⟨some Fault.stackOverflow, 0⟩
       else if c = 51 then ⟨some Fault.badFree, 0⟩
       else if c = 52 then ⟨some Fault.doubleFree, 0⟩
       else if c = 53 then ⟨some Fault.useAfterFree, 0⟩
       else if c = 54 then ⟨some Fault.heapOverflow, 0⟩
       else if c = 55 then ⟨some Fault.divByZero, 0⟩
       else ⟨none, 0⟩) := by
  simp [Bad.func, List.getD_cons_zero, List.getD_cons_succ]

/-! ## C1: the gate is necessary -/

/-- C1: for every input of length ≥ 4 in which not all three gate bytes
match `'x','y','z'`, both fault dispatchers execute no fault and return 0,
regardless of the selector byte `data[3]` and of `only_asan`. -/
theorem C1_gate_required (oa : Bool) (data : List Nat) (hlen : 4 ≤ data.length)
    (hgate : ¬ (data.getD 0 0 = 120 ∧ data.getD 1 0 = 121 ∧ data.getD 2 0 = 122)) :
    Simple.LLVMFuzzerTestOneInput oa data = ⟨none, 0⟩ ∧
    Bad.func data = ⟨none, 0⟩ := by
  constructor
  · unfold Simple.LLVMFuzzerTestOneInput
    rw [if_neg (by omega)]
    by_cases h0 : data.getD 0 0 = 120 <;> by_cases h1 : data.getD 1 0 = 121 <;>
      by_cases h2 : data.getD 2 0 = 122 <;> simp_all
  · unfold Bad.func
    rw [if_neg (by omega)]
    by_cases h0 : data.getD 0 0 = 120 <;> by_cases h1 : data.getD 1 0 = 121 <;>
      by_cases h2 : data.getD 2 0 = 122 <;> simp_all

/-- Witness for C1 at the concrete input `[0, 121, 122, 48]` (first gate
byte mismatched, selector `'0'`). -/
theorem C1_gate_required_witness :
    Simple.LLVMFuzzerTestOneInput false [0, 121, 122, 48] = ⟨none, 0⟩ ∧
    Bad.func [0, 121, 122, 48] = ⟨none, 0⟩ :=
  C1_gate_required false [0, 121, 122, 48] (by decide) (by decide)

/-! ## C5: minimum length and bounded reads -/

/-- C5: inputs shorter than the variant minimum (4 bytes for the simple
and load-library dispatchers, 3 for the regression variant) give
`⟨none, 0⟩`; and every dispatcher's result depends only on the declared
length and the bytes at indices 0…3 (0…2 suffices for the regression
variant), so no byte at an index ≥ the length is ever read. -/
theorem C5_min_length (oa fb : Bool) (d₁ d₂ : List Nat) :
    (d₁.length < 4 →
      Simple.LLVMFuzzerTestOneInput oa d₁ = ⟨none, 0⟩ ∧ Bad.func d₁ = ⟨none, 0⟩) ∧
    (d₁.length < 3 → Regression.LLVMFuzzerTestOneInput fb d₁ = ⟨none, 0⟩) ∧
    (d₁.length = d₂.length → (∀ i, i < 4 → d₁.getD i 0 = d₂.getD i 0) →
      Simple.LLVMFuzzerTestOneInput oa d₁ = Simple.LLVMFuzzerTestOneInput oa d₂ ∧
      Bad.func d₁ = Bad.func d₂ ∧
      Regression.LLVMFuzzerTestOneInput fb d₁ = Regression.LLVMFuzzerTestOneInput fb d₂) := by
  refine ⟨fun h => ⟨?_, ?_⟩, fun h => ?_, fun hlen hbytes => ?_⟩
  · unfold Simple.LLVMFuzzerTestOneInput; rw [if_pos h]
  · unfold Bad.func; rw [if_pos h]
  · unfold Regression.LLVMFuzzerTestOneInput; rw [if_pos h]
  · unfold Simple.LLVMFuzzerTestOneInput Bad.func Regression.LLVMFuzzerTestOneInput
    have h0 := hbytes 0 (by omega)
    have h1 := hbytes 1 (by omega)
    have h2 := hbytes 2 (by omega)
    have h3 := hbytes 3 (by omega)
    simp only [List.getD, List.get?_eq_getElem?] at h0 h1 h2 h3
    simp [hlen, h0, h1, h2, h3]

/-- Witness for C5 at the concrete inputs `[7]` and `[7]`. -/
theorem C5_min_length_witness :
    Simple.LLVMFuzzerTestOneInput false [7] = ⟨none, 0⟩ ∧
    Regression.LLVMFuzzerTestOneInput false [7] = ⟨none, 0⟩ := by
  have h := C5_min_length false false [7] [7]
  exact ⟨(h.1 (by decide)).1, h.2.1 (by decide)⟩

/-! ## C2: the selector table -/

/-- C2 counterexample: with the gate satisfied and selector byte 0 — a
member of `{0..8}`, for which the claim demands the table's fault kind
(`specFaultTable 0 = nullWrite`) — the simple dispatcher executes no
fault at all, because the `switch` arms are the ASCII digits 48…56. -/
theorem C2_counterexample :
    Simple.LLVMFuzzerTestOneInput false [120, 121, 122, 0] = ⟨none, 0⟩ ∧
    specFaultTable 0 = some Fault.nullWrite := by decide

/-- C2 amended: the selectors are the ASCII digit characters `'0'`…`'8'`
(bytes 48…56).  For each such byte after a satisfied gate, the simple
dispatcher (with `only_asan` unset) executes exactly the §4.2 table's
fault kind for the digit's index, and `Bad.func` does the same for
`'0'`…`'7'` while `'8'` is a no-op there. -/
theorem C2_amended (c : Nat) (rest : List Nat) (h1 : 48 ≤ c) (h2 : c ≤ 56) :
    Simple.LLVMFuzzerTestOneInput false (120 :: 121 :: 122 :: c :: rest) =
      ⟨specFaultTable (c - 48), 0⟩ ∧
    Bad.func (120 :: 121 :: 122 :: c :: rest) =
      ⟨if c = 56 then none else specFaultTable (c - 48), 0⟩ := by
  interval_cases c <;>
    simp [simple_gate_run, bad_gate_run, specFaultTable]

/-- Witness for C2 amended at selector byte 48 (`'0'`). -/
theorem C2_amended_witness :
    Simple.LLVMFuzzerTestOneInput false [120, 121, 122, 48] =
      ⟨some Fault.nullWrite, 0⟩ ∧
    Bad.func [120, 121, 122, 48] = ⟨some Fault.nullWrite, 0⟩ := by
  have h := C2_amended 48 [] (by decide) (by decide)
  simpa [specFaultTable] using h

/-! ## C3: unrecognized selectors are a no-op -/

/-- C3 counterexample: the selector byte 48 lies outside `{0..8}`, yet
with the gate satisfied the simple dispatcher executes the null-write
fault rather than returning with no fault as the claim demands. -/
theorem C3_counterexample :
    ¬ (48 : Nat) ≤ 8 ∧
    Simple.LLVMFuzzerTestOneInput false [120, 121, 122, 48] =
      ⟨some Fault.nullWrite, 0⟩ := by decide

/-- C3 amended: for every selector byte outside the ASCII digit range
`{'0'..'8'}` (48…56) after a satisfied gate, both dispatchers execute no
fault and return 0, for either value of `only_asan`. -/
theorem C3_amended (oa : Bool) (c : Nat) (rest : List Nat)
    (h : ¬ (48 ≤ c ∧ c ≤ 56)) :
    Simple.LLVMFuzzerTestOneInput oa (120 :: 121 :: 122 :: c :: rest) = ⟨none, 0⟩ ∧
    Bad.func (120 :: 121 :: 122 :: c :: rest) = ⟨none, 0⟩ := by
  have h48 : c ≠ 48 := by omega
  have h49 : c ≠ 49 := by omega
  have h50 : c ≠ 50 := by omega
  have h51 : c ≠ 51 := by omega
  have h52 : c ≠ 52 := by omega
  have h53 : c ≠ 53 := by omega
  have h54 : c ≠ 54 := by omega
  have h55 : c ≠ 55 := by omega
  have h56 : c ≠ 56 := by omega
  simp [simple_gate_run, bad_gate_run, h48, h49, h50, h51, h52, h53, h54, h55, h56]

/-- Witness for C3 amended at selector byte 97 (`'a'`). -/
theorem C3_amended_witness :
    Simple.LLVMFuzzerTestOneInput false [120, 121, 122, 97] = ⟨none, 0⟩ ∧
    Bad.func [120, 121, 122, 97] = ⟨none, 0⟩ :=
  C3_amended false 97 [] (by omega)

/-! ## C4: the worked example -/

/-- C4 counterexample: on the input `'x','y','z',0x00` the simple
dispatcher executes no fault (the null-write arm is `'0'` = 48, not
0x00), contradicting the claim that this input triggers the null-pointer
write. -/
theorem C4_counterexample :
    (Simple.LLVMFuzzerTestOneInput false [120, 121, 122, 0]).fault = none := by
  decide

/-- C4 amended: the input `'x','y','z','0'` (selector byte 48) triggers
the null-pointer write; the input `'x','y','z',0x00` satisfies the gate
but matches no selector arm, so it returns 0 with no fault; and the input
`'x','y','a',0x00` fails the gate and returns 0 with no fault. -/
theorem C4_amended :
    Simple.LLVMFuzzerTestOneInput false [120, 121, 122, 48] =
      ⟨some Fault.nullWrite, 0⟩ ∧
    Simple.LLVMFuzzerTestOneInput false [120, 121, 122, 0] = ⟨none, 0⟩ ∧
    Simple.LLVMFuzzerTestOneInput false [120, 121, 97, 0] = ⟨none, 0⟩ := by
  decide

/-! ## C10: no abort arm in bad.c -/

/-- C10: `Bad.func`'s selector enumeration stops at `'7'`: on a
gate-satisfying input with selector byte `'8'` (56) it executes no fault
and returns 0, and any fault it does execute is not the process abort and
comes from a selector byte in 48…55. -/
theorem C10_no_abort_in_bad (c : Nat) (rest : List Nat) :
    (c = 56 → Bad.func (120 :: 121 :: 122 :: c :: rest) = ⟨none, 0⟩) ∧
    ∀ f, (Bad.func (120 :: 121 :: 122 :: c :: rest)).fault = some f →
      f ≠ Fault.processAbort ∧ 48 ≤ c ∧ c ≤ 55 := by
  constructor
  · intro h
    subst h
    simp [bad_gate_run]
  · intro f hf
    rw [bad_gate_run] at hf
    repeat' split at hf
    all_goals
      first
        | exact Option.noConfusion hf
        | (obtain rfl := Option.some.inj hf; exact ⟨by decide, by omega, by omega⟩)

/-- Witness for C10 at selector bytes 56 (`'8'`) and 48 (`'0'`). -/
theorem C10_no_abort_in_bad_witness :
    Bad.func [120, 121, 122, 56] = ⟨none, 0⟩ ∧
    (Fault.nullWrite ≠ Fault.processAbort ∧ 48 ≤ (48 : Nat) ∧ (48 : Nat) ≤ 55) :=
  ⟨(C10_no_abort_in_bad 56 []).1 rfl,
   (C10_no_abort_in_bad 48 []).2 Fault.nullWrite (by decide)⟩

/-! ## Lemmas about `LLVMFuzzerInitialize` of simple.c -/

/-- A successful `initStep` sets `only_asan` exactly when the argument is
`--only_asan_failures`, and otherwise keeps the old value. -/
theorem initStep_only_asan (w : List Char → Bool) (st st' : Simple.InitState)
    (arg : List Char) (h : Simple.initStep w st arg = Except.ok st') :
    st'.only_asan = (if arg = Simple.asan_only_arg then true else st.only_asan) := by
  unfold Simple.initStep at h
  split at h
  · split at h
    · injection h with h'
      rw [← h']
    · exact Except.noConfusion h
  · injection h with h'
    rw [← h']

/-- A successful `LLVMFuzzerInitialize` run never clears an already-set
`only_asan` flag. -/
theorem init_only_asan_mono (w : List Char → Bool) (st st' : Simple.InitState)
    (args : List (List Char))
    (h : Simple.LLVMFuzzerInitialize w st args = Except.ok st')
    (hoa : st.only_asan = true) : st'.only_asan = true := by
  induction args generalizing st with
  | nil =>
    unfold Simple.LLVMFuzzerInitialize at h
    injection h with h'
    rw [← h']
    exact hoa
  | cons a rest ih =>
    unfold Simple.LLVMFuzzerInitialize at h
    cases hstep : Simple.initStep w st a with
    | error e =>
      rw [hstep] at h
      exact Except.noConfusion h
    | ok st₁ =>
      rw [hstep] at h
      refine ih st₁ h ?_
      rw [initStep_only_asan w st st₁ a hstep, hoa]
      split <;> rfl

/-- If `--only_asan_failures` occurs among the processed arguments and the
call returns 0, the resulting state has `only_asan` set. -/
theorem init_only_asan_of_mem (w : List Char → Bool) (st st' : Simple.InitState)
    (args : List (List Char))
    (h : Simple.LLVMFuzzerInitialize w st args = Except.ok st')
    (hmem : Simple.asan_only_arg ∈ args) : st'.only_asan = true := by
  induction args generalizing st with
  | nil => cases hmem
  | cons a rest ih =>
    unfold Simple.LLVMFuzzerInitialize at h
    cases hstep : Simple.initStep w st a with
    | error e =>
      rw [hstep] at h
      exact Except.noConfusion h
    | ok st₁ =>
      rw [hstep] at h
      rcases List.mem_cons.mp hmem with heq | hmem'
      · refine init_only_asan_mono w st₁ st' rest h ?_
        rw [initStep_only_asan w st st₁ a hstep, ← heq]
        simp
      · exact ih st₁ h hmem'

/-! ## C6: the --only_asan_failures flag -/

/-- C6 counterexample: with the flag absent (`only_asan = false`) and the
gate satisfied, the selector byte 8 does not cause the process abort the
claim demands — it matches no `switch` arm (the abort arm is `'8'` = 56),
so no fault executes. -/
theorem C6_counterexample :
    Simple.LLVMFuzzerTestOneInput false [120, 121, 122, 8] = ⟨none, 0⟩ := by
  decide

/-- C6 amended: if `LLVMFuzzerInitialize` processed an argument exactly
equal to `--only_asan_failures` and returned 0, the resulting `only_asan`
is set, and under it the gate-satisfied selector byte `'8'` (56) is a
no-op returning 0, while every selector byte `'0'`…`'7'` (48…55) still
triggers its table fault; with the flag absent (`only_asan` still false)
the selector byte `'8'` triggers the process abort. -/
theorem C6_amended (w : List Char → Bool) (st₀ st : Simple.InitState)
    (args : List (List Char))
    (hinit : Simple.LLVMFuzzerInitialize w st₀ args = Except.ok st)
    (hmem : Simple.asan_only_arg ∈ args) (c : Nat) (rest : List Nat) :
    st.only_asan = true ∧
    Simple.LLVMFuzzerTestOneInput st.only_asan (120 :: 121 :: 122 :: 56 :: rest) =
      ⟨none, 0⟩ ∧
    (48 ≤ c → c ≤ 55 →
      Simple.LLVMFuzzerTestOneInput st.only_asan (120 :: 121 :: 122 :: c :: rest) =
        ⟨specFaultTable (c - 48), 0⟩) ∧
    Simple.LLVMFuzzerTestOneInput false (120 :: 121 :: 122 :: 56 :: rest) =
      ⟨some Fault.processAbort, 0⟩ := by
  have hoa := init_only_asan_of_mem w st₀ st args hinit hmem
  rw [hoa]
  refine ⟨rfl, ?_, ?_, ?_⟩
  · simp [simple_gate_run]
  · intro hc1 hc2
    interval_cases c <;> simp [simple_gate_run, specFaultTable]
  · simp [simple_gate_run]

/-- Witness for C6 amended: one `Initialize` call on
`["--only_asan_failures"]`, then the dispatcher at selector bytes 56 and
48 with the flag set, and at 56 with the flag clear. -/
theorem C6_amended_witness :
    Simple.LLVMFuzzerTestOneInput true [120, 121, 122, 56] = ⟨none, 0⟩ ∧
    Simple.LLVMFuzzerTestOneInput true [120, 121, 122, 48] =
      ⟨some Fault.nullWrite, 0⟩ ∧
    Simple.LLVMFuzzerTestOneInput false [120, 121, 122, 56] =
      ⟨some Fault.processAbort, 0⟩ := by
  have h := C6_amended (fun _ => true) ⟨fun _ => [], false⟩ ⟨fun _ => [], true⟩
    [Simple.asan_only_arg] rfl (List.mem_singleton.mpr rfl) 48 []
  exact ⟨h.2.1, by simpa [specFaultTable] using h.2.2.1 (by decide) (by decide), h.2.2.2⟩

/-! ## C7: verbatim delegation in the adapters -/

/-- C7: when the bound function pointer is non-null, both dynamic-load
adapters forward `data` and `size` verbatim and return exactly the bound
function's result; when it is null, both fail the fatal assertion. -/
theorem C7_delegation (ff : Option FuzzFunc) (f : FuzzFunc) (data : List Nat)
    (size : Nat) (h : ff = some f) :
    Dlopen.LLVMFuzzerTestOneInput ff data size =
      CallOutcome.returned (f data size) ∧
    LoadLibrary.LLVMFuzzerTestOneInput ff data size =
      CallOutcome.returned (f data size) ∧
    Dlopen.LLVMFuzzerTestOneInput none data size = CallOutcome.assertionFailure ∧
    LoadLibrary.LLVMFuzzerTestOneInput none data size =
      CallOutcome.assertionFailure := by
  subst h
  exact ⟨rfl, rfl, rfl, rfl⟩

/-- Witness for C7 at a concrete bound function and input. -/
theorem C7_delegation_witness :
    Dlopen.LLVMFuzzerTestOneInput (some fun _ size => (size : Int)) [9, 9] 2 =
      CallOutcome.returned 2 ∧
    LoadLibrary.LLVMFuzzerTestOneInput (some fun _ size => (size : Int)) [9, 9] 2 =
      CallOutcome.returned 2 ∧
    Dlopen.LLVMFuzzerTestOneInput none [9, 9] 2 = CallOutcome.assertionFailure ∧
    LoadLibrary.LLVMFuzzerTestOneInput none [9, 9] 2 =
      CallOutcome.assertionFailure :=
  C7_delegation (some fun _ size => (size : Int)) (fun _ size => (size : Int))
    [9, 9] 2 rfl

/-! ## C8: fatal initialization failures -/

/-- C8 counterexample: in the dlopen adapter a failed module load does
*not* terminate the process — `LLVMFuzzerInitialize` merely returns the
status 1 (with `fuzz_func` still null), so the process would go on to the
first `TestOneInput` call. -/
theorem C8_counterexample :
    Dlopen.LLVMFuzzerInitialize false none = InitOutcome.returned 1 none ∧
    (Dlopen.LLVMFuzzerInitialize false none).isExited = false :=
  ⟨rfl, rfl⟩

/-- C8 amended: the load-library adapter exits with code 1 on either a
failed module load or a failed symbol resolution; the dlopen adapter
exits with code 1 on a failed symbol resolution but merely *returns* the
non-zero status 1 (leaving `fuzz_func` null, so the first `TestOneInput`
would fail its fatal assertion) on a failed module load; and in both
adapters `Initialize` returns status 0 only with a non-null `fuzz_func`,
namely the resolved function. -/
theorem C8_amended (moduleOk : Bool) (resolved ff : Option FuzzFunc)
    (status : Int) :
    LoadLibrary.LLVMFuzzerInitialize false resolved = InitOutcome.exited 1 ∧
    LoadLibrary.LLVMFuzzerInitialize moduleOk none = InitOutcome.exited 1 ∧
    Dlopen.LLVMFuzzerInitialize true none = InitOutcome.exited 1 ∧
    Dlopen.LLVMFuzzerInitialize false resolved = InitOutcome.returned 1 none ∧
    (Dlopen.LLVMFuzzerTestOneInput none [] 0 = CallOutcome.assertionFailure) ∧
    (Dlopen.LLVMFuzzerInitialize moduleOk resolved =
        InitOutcome.returned status ff → status = 0 → ff = resolved ∧
      ∃ f, ff = some f) ∧
    (LoadLibrary.LLVMFuzzerInitialize moduleOk resolved =
        InitOutcome.returned status ff → ff = resolved ∧ ∃ f, ff = some f) := by
  refine ⟨rfl, ?_, rfl, rfl, rfl, ?_, ?_⟩
  · unfold LoadLibrary.LLVMFuzzerInitialize
    cases moduleOk <;> rfl
  · intro h hs
    unfold Dlopen.LLVMFuzzerInitialize at h
    cases moduleOk with
    | false =>
      rw [if_pos rfl] at h
      injection h with h1 h2
      subst h1
      exact absurd hs (by decide)
    | true =>
      rw [if_neg (by decide)] at h
      cases resolved with
      | none => exact InitOutcome.noConfusion h
      | some f =>
        injection h with h1 h2
        subst h2
        exact ⟨rfl, f, rfl⟩
  · intro h
    unfold LoadLibrary.LLVMFuzzerInitialize at h
    cases moduleOk with
    | false => exact InitOutcome.noConfusion ((if_pos rfl).symm.trans h)
    | true =>
      rw [if_neg (by decide)] at h
      cases resolved with
      | none => exact InitOutcome.noConfusion h
      | some f =>
        injection h with h1 h2
        subst h2
        exact ⟨rfl, f, rfl⟩

/-- Witness for C8 amended with the module present and the symbol
resolving to a concrete function. -/
theorem C8_amended_witness :
    LoadLibrary.LLVMFuzzerInitialize false (some fun _ _ => (0 : Int)) =
      InitOutcome.exited 1 ∧
    Dlopen.LLVMFuzzerInitialize false (some fun _ _ => (0 : Int)) =
      InitOutcome.returned 1 none ∧
    ∃ f : FuzzFunc, (some (fun _ _ => (0 : Int)) : Option FuzzFunc) = some f := by
  have h := C8_amended true (some fun _ _ => (0 : Int)) (some fun _ _ => (0 : Int)) 0
  exact ⟨h.1, h.2.2.2.1, (h.2.2.2.2.2.1 rfl rfl).2⟩

/-! ## C9: the --write_test_file marker -/

/-- A char list is a prefix (in the `strncmp` sense) of itself followed by
anything. -/
theorem isPrefixOf_append_self (l₁ l₂ : List Char) :
    l₁.isPrefixOf (l₁ ++ l₂) = true := by
  induction l₁ with
  | nil => simp [List.isPrefixOf]
  | cons a t ih => simp [List.isPrefixOf, ih]

/-- `LLVMFuzzerInitialize` on a single argument is exactly one
`initStep`. -/
theorem init_single (w : List Char → Bool) (st : Simple.InitState)
    (a : List Char) :
    Simple.LLVMFuzzerInitialize w st [a] = Simple.initStep w st a := by
  unfold Simple.LLVMFuzzerInitialize
  cases Simple.initStep w st a <;> rfl

/-- One `initStep` on the argument `--write_test_file=<p>` with `p`
writable succeeds and appends the marker line to `p`, leaving every other
file unchanged and `only_asan` unchanged. -/
theorem initStep_write_test_file (w : List Char → Bool) (st : Simple.InitState)
    (p : List Char) (hw : w p = true) :
    Simple.initStep w st (Simple.test_file_arg ++ p) =
      Except.ok
        { fs := fun q => if q = p then st.fs q ++ Simple.marker_line else st.fs q,
          only_asan := st.only_asan } := by
  have hdrop : (Simple.test_file_arg ++ p).drop Simple.test_file_arg.length = p :=
    List.drop_left _ _
  have hne : ¬ Simple.test_file_arg ++ p = Simple.asan_only_arg := by
    intro hcontra
    have ht : (Simple.test_file_arg ++ p).take Simple.test_file_arg.length =
        Simple.asan_only_arg.take Simple.test_file_arg.length := by rw [hcontra]
    rw [List.take_left] at ht
    exact absurd ht (by decide)
  unfold Simple.initStep
  rw [if_pos (isPrefixOf_append_self _ _), hdrop, if_pos hw, if_neg hne]

/-- C9: calling `LLVMFuzzerInitialize` with the single argument
`--write_test_file=<p>`, for a writable path `p`, returns 0 and leaves
`p` holding its previous contents followed by the marker line
`"Hello from simple fuzzer\n"`, with every other file untouched; a second
such call appends a second marker line after the first instead of
overwriting. -/
theorem C9_write_test_file (w : List Char → Bool) (st : Simple.InitState)
    (p : List Char) (hw : w p = true) :
    ∃ st₁ : Simple.InitState,
      Simple.LLVMFuzzerInitialize w st [Simple.test_file_arg ++ p] =
        Except.ok st₁ ∧
      st₁.fs p = st.fs p ++ Simple.marker_line ∧
      (∀ q, q ≠ p → st₁.fs q = st.fs q) ∧
      ∃ st₂ : Simple.InitState,
        Simple.LLVMFuzzerInitialize w st₁ [Simple.test_file_arg ++ p] =
          Except.ok st₂ ∧
        st₂.fs p = (st.fs p ++ Simple.marker_line) ++ Simple.marker_line := by
  refine ⟨_, (init_single w st _).trans (initStep_write_test_file w st p hw),
    by simp, fun q hq => by simp [hq], _,
    (init_single w _ _).trans (initStep_write_test_file w _ p hw), by simp⟩

/-- Witness for C9 at the path `out.txt` on an empty file system where
every path is writable. -/
theorem C9_write_test_file_witness :
    ∃ st₁ : Simple.InitState,
      Simple.LLVMFuzzerInitialize (fun _ => true) ⟨fun _ => [], false⟩
          [Simple.test_file_arg ++ "out.txt".data] = Except.ok st₁ ∧
      st₁.fs "out.txt".data = [] ++ Simple.marker_line ∧
      (∀ q, q ≠ "out.txt".data → st₁.fs q = []) ∧
      ∃ st₂ : Simple.InitState,
        Simple.LLVMFuzzerInitialize (fun _ => true) st₁
            [Simple.test_file_arg ++ "out.txt".data] = Except.ok st₂ ∧
        st₂.fs "out.txt".data = ([] ++ Simple.marker_line) ++ Simple.marker_line :=
  C9_write_test_file (fun _ => true) ⟨fun _ => [], false⟩ "out.txt".data rfl

end Onefuzz
